import Mathlib

/-
Verification of the leechbar rendering/layout engine against its
natural-language specification.

The definitions below are a shallow embedding of the Rust sources:
  * `Width`, `calculate_width`        from src/render.rs (calculate_width) and
                                      src/component.rs (struct Width)
  * `Geometry`, `BarComponent`,
    `BarComponentCache`               from src/bar_component.rs
  * `xoffset_by_id`                   from src/render.rs (xoffset_by_id)
  * `render_focal`                    the sequence of X requests issued by
                                      src/render.rs render() for the redrawn
                                      component
  * `text_new`                        the construction gate of Text::new in
                                      src/component/text.rs
  * `convert_image`                   from src/util.rs / src/img.rs

Machine integers are embedded as Nat/Int with the casts made explicit:
  * `sumU16`     models Rust `iter().sum::<u16>()` (u16 wrap-around)
  * `u16_as_i16` models the Rust cast `u16 as i16` (bit reinterpretation)
  * `f64_as_i16` models the Rust cast `f64 as i16` on an exactly represented
                 integer value (truncation toward zero is applied by the
                 caller before this saturating clamp)
  * `i16_wrap`   models wrap-around of i16 arithmetic (release semantics)
All f64 arithmetic performed by the source on these values (sums of u16 and
halving) is exact, so it is embedded as exact Int arithmetic; the truncation
toward zero of `x as i16` for x = (a - b)/2 is embedded as `Int.tdiv (a - b) 2`.
-/

namespace Leechbar

/-- Width policy of a component (src/component.rs, struct Width). -/
structure Width where
  fixed : Option Nat
  min : Nat
  max : Nat
  ignore_background : Bool
  ignore_text : Bool

/-- `Width::new()`: no fixed width, min 0, max u16::MAX, nothing ignored. -/
def Width.new : Width :=
  { fixed := none, min := 0, max := 65535,
    ignore_background := false, ignore_text := false }

/-- `calculate_width` (src/render.rs lines 281-322).
`background` is the natural width of the background image when the component
has a background with an image, `text` is the measured text width
(`text_width(...).unwrap_or(0)`) when the component has a text. -/
def calculate_width (bar_width : Nat) (width : Width) (background : Option Nat)
    (text : Option Nat) : Nat :=
  match width.fixed with
  | some fixed => fixed
  | none =>
    let w := width.min
    let w := match background with
      | some image_width => if !width.ignore_background then max w image_width else w
      | none => w
    let w := match text with
      | some text_width => if !width.ignore_text then max w text_width else w
      | none => w
    let w := Nat.min w bar_width
    Nat.min w width.max

/-- Geometry of a component (src/util/geometry.rs). -/
structure Geometry where
  x : Int
  y : Int
  width : Nat
  height : Nat
deriving DecidableEq

def Geometry.new (x y : Int) (width height : Nat) : Geometry :=
  { x := x, y := y, width := width, height := height }

/-- Alignment inside a container (src/alignment.rs). -/
inductive Alignment
  | LEFT
  | CENTER
  | RIGHT
deriving DecidableEq

/-- RGBA color (src/color.rs). -/
structure Color where
  red : Nat
  green : Nat
  blue : Nat
  alpha : Nat
deriving DecidableEq

/-- A cached image: a server-side picture with an id (src/img.rs, the
`arc.xid` of the picture is all the cache fingerprints look at). -/
structure Image where
  xid : Nat
deriving DecidableEq

/-- A cached text: a server-side picture with an id (src/component/text.rs). -/
structure Text where
  xid : Nat
deriving DecidableEq

/-- Background of a component (src/background.rs). -/
structure Background where
  color : Option Color
  image : Option Image
  alignment : Alignment
deriving DecidableEq

/-- Foreground of a component (src/foreground.rs). -/
structure Foreground where
  text : Option Text
  alignment : Alignment
  yoffset : Option Int
deriving DecidableEq

/-- Fingerprint of a component's declared visual inputs
(src/bar_component.rs lines 12-17). -/
structure BarComponentCache where
  picture : Nat
  yoffset : Int
  color : Option Color
  alignment : Alignment
deriving DecidableEq

/-- `BarComponentCache::new()` (src/bar_component.rs lines 21-28). -/
def BarComponentCache.new : BarComponentCache :=
  { picture := 0, yoffset := 0, color := none, alignment := Alignment.CENTER }

/-- `BarComponentCache::new_bg` (src/bar_component.rs lines 31-38). -/
def BarComponentCache.new_bg (background : Background) : BarComponentCache :=
  { picture := (background.image.map fun i => i.xid).getD 0,
    yoffset := 0,
    color := background.color,
    alignment := background.alignment }

/-- `BarComponentCache::new_fg` (src/bar_component.rs lines 41-49). -/
def BarComponentCache.new_fg (foreground : Foreground) : BarComponentCache :=
  { picture := (foreground.text.map fun t => t.xid).getD 0,
    yoffset := (foreground.yoffset).getD 0,
    color := none,
    alignment := foreground.alignment }

/-- A component registered in the bar (src/bar_component.rs lines 59-66). -/
structure BarComponent where
  id : Nat
  dirty : Bool
  picture : Nat
  geometry : Geometry
  bg_cache : BarComponentCache
  fg_cache : BarComponentCache
deriving DecidableEq

/-- Rust `iter().sum::<u16>()`: summation wrapping around at 2^16
(release-mode overflow semantics). -/
def sumU16 (l : List Nat) : Nat :=
  l.sum % 65536

/-- Rust `u16 as i16`: bit reinterpretation of a value below 2^16. -/
def u16_as_i16 (n : Nat) : Int :=
  if n < 32768 then (n : Int) else (n : Int) - 65536

/-- Rust `f64 as i16` applied to an already truncated integer value:
saturation to the i16 range. -/
def f64_as_i16 (x : Int) : Int :=
  max (-32768) (min 32767 x)

/-- Wrap-around of i16 arithmetic into [-32768, 32767]
(release-mode overflow semantics). -/
def i16_wrap (x : Int) : Int :=
  (x + 32768) % 65536 - 32768

/-- The widths summed by `xoffset_by_id` for a center or right component:
the cached widths of the other components of the same bucket
(src/render.rs lines 179-186).  The sum is a `u16` sum and the total is the
exact f64 value `width` after `width += f64::from(new_width)`. -/
def bucket_total (components : List BarComponent) (id : Nat) (new_width : Nat) : Nat :=
  sumU16 (((components.filter fun c => (c.id != id) && (c.id % 3 == id % 3)).map
    fun c => c.geometry.width)) + new_width

/-- The widths summed by `xoffset_by_id` for a left component: the cached
widths of the same-bucket components with smaller id
(src/render.rs lines 196-201). -/
def left_widths (components : List BarComponent) (id : Nat) : List Nat :=
  (components.filter fun c => (decide (c.id < id)) && (c.id % 3 == id % 3)).map
    fun c => c.geometry.width

/-- `xoffset_by_id` (src/render.rs lines 176-203).
Center: `(f64::from(bar_width) / 2f64 - width / 2f64) as i16`; both halves are
exact in f64, so the cast truncates `(bar_width - width) / 2` toward zero
(`Int.tdiv`) and saturates.  Right: `bar_width as i16 - width as i16` with the
u16 bit-cast, the saturating f64 cast, and wrapping i16 subtraction.
Left: `sum::<u16>() as i16`. -/
def xoffset_by_id (components : List BarComponent) (id : Nat) (new_width : Nat)
    (bar_width : Nat) : Int :=
  if id % 3 != 0 then
    let width := bucket_total components id new_width
    if id % 3 == 1 then
      f64_as_i16 (Int.tdiv ((bar_width : Int) - (width : Int)) 2)
    else
      i16_wrap (u16_as_i16 bar_width - f64_as_i16 (min (width : Int) 32767))
  else
    u16_as_i16 (sumU16 (left_widths components id))

/-- The components selected for re-layout by `render`
(src/render.rs lines 76-80). -/
def redraw_selection (components : List BarComponent) (id : Nat) : List BarComponent :=
  components.filter fun c => ((c.id % 3 != 0) || (decide (id ≤ c.id))) && (c.id % 3 == id % 3)

/-- One request of the redraw cycle of `render` (src/render.rs lines 49-115)
for the redrawn component, in program order. -/
inductive Step
  | create_pixmap
  | fill_rect
  | draw_background
  | draw_foreground
  | free_old_picture
  | create_picture
  | free_pixmap
  | blit
deriving DecidableEq

/-- What the registry entry's picture id refers to:
`prev` — the previous, last-successfully-built surface;
`freed` — nothing (the previous surface has been freed and no new one exists);
`fresh` — the surface built by the current cycle. -/
inductive PictureState
  | prev
  | freed
  | fresh
deriving DecidableEq

/-- Outcome of each checked X request of the redraw cycle (`true` = the
request succeeds).  `draw_background` collapses the checked requests of
`render_background` (create_gc, poly_fill_rectangle, put_image) and
`draw_foreground` the fallible part of `render_text`; `blit` collapses the
checked requests of `BarComponent::redraw`. -/
structure Oracle where
  create_pixmap : Bool
  fill_rect : Bool
  draw_background : Bool
  draw_foreground : Bool
  create_picture : Bool
  blit : Bool
deriving DecidableEq

/-- All X requests succeed. -/
def Oracle.ok : Oracle :=
  { create_pixmap := true, fill_rect := true, draw_background := true,
    draw_foreground := true, create_picture := true, blit := true }

/-- The redraw cycle of `render` (src/render.rs lines 17-122) restricted to
the redrawn component: the sequence of X requests it issues, in program
order, with the early return of the `xtry!` macro (src/macros.rs lines
54-69) embedded as an error result.  Returns the result surfaced to the
caller, the final state of the entry's picture, and the trace of attempted
requests.  The entry (with its fingerprint caches) is passed exactly as the
registry hands it to `render`; the cycle starts while the entry still owns
its previous surface. -/
def render_focal (o : Oracle) (entry : BarComponent) (background : Option Background)
    (foreground : Option Foreground) (w h : Nat) :
    Except String Unit × PictureState × List Step :=
  let trace := [Step.create_pixmap]
  if !o.create_pixmap then (Except.error "XError", PictureState.prev, trace) else
  let trace := trace ++ [Step.fill_rect]
  if !o.fill_rect then (Except.error "XError", PictureState.prev, trace) else
  let trace := trace ++ (if background.isSome then [Step.draw_background] else [])
  if background.isSome && !o.draw_background then
    (Except.error "XError", PictureState.prev, trace) else
  let trace := trace ++ (if foreground.isSome then [Step.draw_foreground] else [])
  if foreground.isSome && !o.draw_foreground then
    (Except.error "XError", PictureState.prev, trace) else
  let trace := trace ++ [Step.free_old_picture, Step.create_picture]
  if !o.create_picture then (Except.error "XError", PictureState.freed, trace) else
  let trace := trace ++ [Step.free_pixmap]
  if 0 < w ∧ 0 < h then
    let trace := trace ++ [Step.blit]
    if !o.blit then (Except.error "XError", PictureState.fresh, trace)
    else (Except.ok (), PictureState.fresh, trace)
  else (Except.ok (), PictureState.fresh, trace)

/-- The construction gate of `Text::new` (src/component/text.rs lines 43-128):
an empty content string is rejected before any server-side work; otherwise
the X-dependent remainder of the constructor (font resolution, measurement,
pixmap, drawing, picture creation), abstracted as `rest`, runs and yields
the picture id of the created text surface. -/
def text_new (content : String) (rest : Unit → Except String Nat) : Except String Nat :=
  if content.isEmpty then Except.error "Text content empty" else rest ()

/-- One pixel of the `to_rgba()` buffer: `c0`..`c3` are `channels[0]` (red)
through `channels[3]` (alpha) in RGBA order. -/
structure Rgba where
  c0 : Nat
  c1 : Nat
  c2 : Nat
  c3 : Nat
deriving DecidableEq

/-- The loop body of `convert_image` (src/util.rs lines 11-17): swap
`channels[0]` and `channels[2]` of a pixel. -/
def swap_channels (p : Rgba) : Rgba :=
  { c0 := p.c2, c1 := p.c1, c2 := p.c0, c3 := p.c3 }

/-- `into_raw()` of one pixel: its four channels in order. -/
def pixel_bytes (p : Rgba) : List Nat :=
  [p.c0, p.c1, p.c2, p.c3]

/-- `into_raw()` of a pixel buffer: the channels of all pixels in order. -/
def raw_bytes : List Rgba → List Nat
  | [] => []
  | p :: rest => pixel_bytes p ++ raw_bytes rest

/-- An input image after `to_rgba()`: its pixel dimensions and its pixels in
row-major order (`pixels.length = width * height` for a real image). -/
structure RgbaImage where
  width : Nat
  height : Nat
  pixels : List Rgba

/-- `convert_image` (src/util.rs lines 7-20 and src/img.rs lines 57-70,
identical): swap `channels[0]` and `channels[2]` of every pixel of the
RGBA buffer and return the raw bytes. -/
def convert_image (image : RgbaImage) : List Nat :=
  raw_bytes (image.pixels.map swap_channels)

/-- Byte-level description of the channel swap: exchange the first and third
byte of every group of four (used to compare `convert_image` with the plain
RGBA bytes). -/
def swap_bgra : List Nat → List Nat
  | c0 :: c1 :: c2 :: c3 :: rest => c2 :: c1 :: c0 :: c3 :: swap_bgra rest
  | l => l

theorem u16_as_i16_of_lt {n : Nat} (h : n < 32768) : u16_as_i16 n = n := by
  simp [u16_as_i16, h]

theorem f64_as_i16_of_mem {x : Int} (h1 : -32768 ≤ x) (h2 : x ≤ 32767) :
    f64_as_i16 x = x := by
  unfold f64_as_i16
  omega

theorem i16_wrap_of_mem {x : Int} (h1 : -32768 ≤ x) (h2 : x ≤ 32767) :
    i16_wrap x = x := by
  unfold i16_wrap
  omega

theorem tdiv_natCast (n : Nat) : Int.tdiv (n : Int) 2 = ((n / 2 : Nat) : Int) := rfl

theorem sumU16_of_lt {l : List Nat} (h : l.sum < 65536) : sumU16 l = l.sum := by
  unfold sumU16
  omega

theorem raw_bytes_length (ps : List Rgba) : (raw_bytes ps).length = 4 * ps.length := by
  induction ps with
  | nil => rfl
  | cons p rest ih =>
      simp [raw_bytes, pixel_bytes, ih]
      omega

theorem raw_bytes_map_swap (ps : List Rgba) :
    raw_bytes (ps.map swap_channels) = swap_bgra (raw_bytes ps) := by
  induction ps with
  | nil => rfl
  | cons p rest ih => simp [raw_bytes, pixel_bytes, swap_channels, swap_bgra, ih]

theorem swap_bgra_invol (l : List Nat) : swap_bgra (swap_bgra l) = l := by
  match l with
  | c0 :: c1 :: c2 :: c3 :: rest => simp [swap_bgra, swap_bgra_invol rest]
  | [] => rfl
  | [a] => rfl
  | [a, b] => rfl
  | [a, b, c] => rfl

/-- C1 (counterexample): a declared fixed width of 300 on a bar of width 200
yields a computed width of 300, not the claimed clamp `min 300 200 = 200`. -/
theorem calculate_width_fixed_counterexample :
    calculate_width 200 { Width.new with fixed := some 300 } none none = 300 ∧
    (300 : Nat) ≠ Nat.min 300 200 := by
  decide

/-- C1 (amended): whenever a fixed width is declared, `calculate_width`
returns it unchanged — it is not clamped to `[0, bar_width]`; background and
text widths, min, max and the bar width are all ignored. -/
theorem calculate_width_fixed_unclamped (bar_width : Nat) (width : Width)
    (background text : Option Nat) (fixed : Nat) (h : width.fixed = some fixed) :
    calculate_width bar_width width background text = fixed := by
  simp [calculate_width, h]

theorem calculate_width_fixed_unclamped_witness :
    calculate_width 200 { Width.new with fixed := some 300 } none none = 300 :=
  calculate_width_fixed_unclamped 200 { Width.new with fixed := some 300 } none none 300 rfl

/-- C3 (counterexample): with no fixed width, min = 300, max = 500 on a bar of
width 200 (no background, no text), the computed width is 200, which is not
within `[min, max] = [300, 500]`. -/
theorem calculate_width_bounds_counterexample :
    calculate_width 200 { Width.new with min := 300, max := 500 } none none = 200 ∧
    ¬(300 ≤ calculate_width 200 { Width.new with min := 300, max := 500 } none none) := by
  decide

/-- C3 (amended): for every non-fixed width policy the computed width lies
within `[0, bar_width]` and never exceeds the declared maximum; it also
respects the declared minimum (hence lies within `[min, max]`) provided the
minimum does not exceed the bar width or the declared maximum. -/
theorem calculate_width_bounds (bar_width : Nat) (width : Width)
    (background text : Option Nat) (hfixed : width.fixed = none) :
    calculate_width bar_width width background text ≤ bar_width ∧
    calculate_width bar_width width background text ≤ width.max ∧
    (width.min ≤ bar_width → width.min ≤ width.max →
      width.min ≤ calculate_width bar_width width background text) := by
  unfold calculate_width
  rw [hfixed]
  cases background <;> cases text <;> dsimp only <;>
    simp only [Nat.min_def, Nat.max_def] <;>
    split_ifs <;> refine ⟨by omega, by omega, by omega⟩

theorem calculate_width_bounds_witness :
    10 ≤ calculate_width 200 { Width.new with min := 10, max := 100 } (some 42) none :=
  (calculate_width_bounds 200 { Width.new with min := 10, max := 100 } (some 42) none
    rfl).2.2 (by decide) (by decide)

/-- C4 (counterexample): a center component of new width 50 with one other
center-bucket component of cached width 31 on a bar of width 200 has bucket
total 81 and computed offset 59, while the claimed formula
`bar_width/2 - total_width/2` gives 100 - 40 = 60 under integer halves and
59.5 under exact halves, neither of which equals the computed offset. -/
theorem xoffset_center_counterexample :
    bucket_total [⟨4, false, 0, Geometry.new 0 0 31 20,
      BarComponentCache.new, BarComponentCache.new⟩] 1 50 = 81 ∧
    xoffset_by_id [⟨4, false, 0, Geometry.new 0 0 31 20,
      BarComponentCache.new, BarComponentCache.new⟩] 1 50 200 = 59 ∧
    ((200 / 2 : Nat) : Int) - ((81 / 2 : Nat) : Int) = 60 ∧
    (59 : Int) ≠ 60 ∧
    2 * (59 : Int) ≠ (200 : Int) - 81 := by
  decide

/-- C4 (amended): for a center-bucket component whose bucket total (new width
of self plus the u16 sum of the other center components' cached widths) does
not exceed the bar width, the computed offset is
`(bar_width - total_width) / 2` rounded down — equivalently
`bar_width/2 - total_width/2` whenever the difference is even. -/
theorem xoffset_center_floor (components : List BarComponent)
    (id new_width bar_width : Nat) (hid : id % 3 = 1) (hbar : bar_width < 65536)
    (htotal : bucket_total components id new_width ≤ bar_width) :
    xoffset_by_id components id new_width bar_width =
      (((bar_width - bucket_total components id new_width) / 2 : Nat) : Int) := by
  unfold xoffset_by_id
  rw [hid]
  norm_num
  rw [show (bar_width : Int) - (bucket_total components id new_width : Int)
      = ((bar_width - bucket_total components id new_width : Nat) : Int) by omega]
  rw [tdiv_natCast]
  exact f64_as_i16_of_mem (by omega) (by omega)

theorem xoffset_center_floor_witness :
    xoffset_by_id [⟨1, false, 0, Geometry.new 0 0 50 20,
      BarComponentCache.new, BarComponentCache.new⟩] 4 30 200 =
      (((200 - bucket_total [⟨1, false, 0, Geometry.new 0 0 50 20,
        BarComponentCache.new, BarComponentCache.new⟩] 4 30) / 2 : Nat) : Int) :=
  xoffset_center_floor [⟨1, false, 0, Geometry.new 0 0 50 20,
    BarComponentCache.new, BarComponentCache.new⟩] 4 30 200
    (by decide) (by decide) (by decide)

/-- C5 (counterexample): a single right-bucket component of width 100 on a bar
of width 40000 satisfies total_width ≤ bar_width, yet the computed offset is
-25636 (the bar width is bit-cast through i16), so offset + total_width =
-25536 ≠ 40000: the bucket does not end flush with the bar's right edge. -/
theorem xoffset_right_counterexample :
    bucket_total ([] : List BarComponent) 2 100 = 100 ∧
    (100 : Nat) ≤ 40000 ∧
    xoffset_by_id [] 2 100 40000 = -25636 ∧
    xoffset_by_id [] 2 100 40000 + 100 ≠ (40000 : Int) := by
  decide

/-- C5 (amended): for a right-bucket component whose bucket total does not
exceed the bar width, and a bar width within the i16 range (at most 32767),
the computed offset satisfies offset + total_width = bar_width: the bucket
ends flush with the bar's right edge. -/
theorem xoffset_right_flush (components : List BarComponent)
    (id new_width bar_width : Nat) (hid : id % 3 = 2) (hbar : bar_width ≤ 32767)
    (htotal : bucket_total components id new_width ≤ bar_width) :
    xoffset_by_id components id new_width bar_width +
      (bucket_total components id new_width : Int) = bar_width := by
  unfold xoffset_by_id
  rw [hid]
  norm_num
  rw [u16_as_i16_of_lt (by omega)]
  rw [show min ((bucket_total components id new_width : Nat) : Int) 32767
      = (bucket_total components id new_width : Int) by omega]
  rw [f64_as_i16_of_mem (by omega) (by omega)]
  rw [i16_wrap_of_mem (by omega) (by omega)]
  omega

theorem xoffset_right_flush_witness :
    xoffset_by_id [] 2 50 200 + (bucket_total ([] : List BarComponent) 2 50 : Int) = 200 :=
  xoffset_right_flush [] 2 50 200 (by decide) (by decide) (by decide)

/-- C6 (counterexample): a left-bucket component with id 3 whose left sibling
(id 0) has cached width 40000 gets computed offset -25536 (the u16 sum is
bit-cast to i16), not the sum 40000 the claim states. -/
theorem xoffset_left_counterexample :
    (left_widths [⟨0, false, 0, Geometry.new 0 0 40000 20,
      BarComponentCache.new, BarComponentCache.new⟩] 3).sum = 40000 ∧
    xoffset_by_id [⟨0, false, 0, Geometry.new 0 0 40000 20,
      BarComponentCache.new, BarComponentCache.new⟩] 3 10 200 = -25536 ∧
    (-25536 : Int) ≠ (40000 : Int) := by
  decide

/-- C6 (amended): for a left-bucket component, whenever the sum of the cached
widths of the left-bucket components with smaller id stays within the i16
range (below 32768), the computed offset equals that sum, so components
accumulate left-to-right from x = 0. -/
theorem xoffset_left_sum (components : List BarComponent)
    (id new_width bar_width : Nat) (hid : id % 3 = 0)
    (hsum : (left_widths components id).sum < 32768) :
    xoffset_by_id components id new_width bar_width =
      ((left_widths components id).sum : Int) := by
  unfold xoffset_by_id
  rw [hid]
  norm_num
  rw [sumU16_of_lt (by omega), u16_as_i16_of_lt hsum]
  push_cast
  rfl

theorem xoffset_left_sum_witness :
    xoffset_by_id [⟨0, false, 0, Geometry.new 0 0 50 20,
      BarComponentCache.new, BarComponentCache.new⟩,
      ⟨3, false, 0, Geometry.new 50 0 30 20,
      BarComponentCache.new, BarComponentCache.new⟩] 3 30 200 =
      ((left_widths [⟨0, false, 0, Geometry.new 0 0 50 20,
        BarComponentCache.new, BarComponentCache.new⟩,
        ⟨3, false, 0, Geometry.new 50 0 30 20,
        BarComponentCache.new, BarComponentCache.new⟩] 3).sum : Int) :=
  xoffset_left_sum [⟨0, false, 0, Geometry.new 0 0 50 20,
    BarComponentCache.new, BarComponentCache.new⟩,
    ⟨3, false, 0, Geometry.new 50 0 30 20,
    BarComponentCache.new, BarComponentCache.new⟩] 3 30 200 (by decide) (by decide)

/-- C7: a redraw cycle for component `id` selects for re-layout exactly the
registry entries in the same alignment bucket (`c.id % 3 = id % 3`),
restricted for the left bucket (`id % 3 = 0`) to entries with `c.id ≥ id`,
while for the center and right buckets every bucket member is selected;
entries of other buckets are never selected. -/
theorem redraw_selection_membership (components : List BarComponent) (id : Nat)
    (c : BarComponent) :
    c ∈ redraw_selection components id ↔
      c ∈ components ∧ c.id % 3 = id % 3 ∧ (id % 3 = 0 → id ≤ c.id) := by
  simp only [redraw_selection, List.mem_filter, Bool.and_eq_true, Bool.or_eq_true,
    bne_iff_ne, ne_eq, decide_eq_true_eq, beq_iff_eq]
  constructor
  · rintro ⟨h1, h2⟩
    exact ⟨h1, by omega⟩
  · rintro ⟨h1, h2⟩
    exact ⟨h1, by omega⟩

/-- C2 (counterexample): a redraw cycle for an entry whose cached background
and foreground fingerprints equal the fingerprints of the newly declared
background and foreground (and whose geometry matches the new width/height)
still performs the compositor step: the trace contains the surface build
(create_pixmap) and the blit, so nothing is skipped on fingerprint
equality. -/
theorem render_skip_counterexample :
    (BarComponentCache.new_bg ⟨some ⟨255, 0, 255, 255⟩, some ⟨7⟩, Alignment.CENTER⟩ =
      BarComponentCache.new_bg ⟨some ⟨255, 0, 255, 255⟩, some ⟨7⟩, Alignment.CENTER⟩) ∧
    Step.create_pixmap ∈ (render_focal Oracle.ok
      ⟨1, false, 42, Geometry.new 75 0 50 20,
        BarComponentCache.new_bg ⟨some ⟨255, 0, 255, 255⟩, some ⟨7⟩, Alignment.CENTER⟩,
        BarComponentCache.new_fg ⟨some ⟨9⟩, Alignment.CENTER, some 0⟩⟩
      (some ⟨some ⟨255, 0, 255, 255⟩, some ⟨7⟩, Alignment.CENTER⟩)
      (some ⟨some ⟨9⟩, Alignment.CENTER, some 0⟩) 50 20).2.2 ∧
    Step.blit ∈ (render_focal Oracle.ok
      ⟨1, false, 42, Geometry.new 75 0 50 20,
        BarComponentCache.new_bg ⟨some ⟨255, 0, 255, 255⟩, some ⟨7⟩, Alignment.CENTER⟩,
        BarComponentCache.new_fg ⟨some ⟨9⟩, Alignment.CENTER, some 0⟩⟩
      (some ⟨some ⟨255, 0, 255, 255⟩, some ⟨7⟩, Alignment.CENTER⟩)
      (some ⟨some ⟨9⟩, Alignment.CENTER, some 0⟩) 50 20).2.2 := by
  decide

/-- C2 (amended): the redraw cycle never consults the cached fingerprints:
with all X requests succeeding it always performs the surface build
(create_pixmap) and, whenever the computed geometry is non-zero, the blit;
its entire outcome is independent of the entry's cached background and
foreground fingerprints.  The caches of this snapshot are write-only, so no
redraw-skip signal exists. -/
theorem render_focal_never_skips (entry entry2 : BarComponent)
    (background : Option Background) (foreground : Option Foreground) (w h : Nat) :
    Step.create_pixmap ∈ (render_focal Oracle.ok entry background foreground w h).2.2 ∧
    (0 < w → 0 < h →
      Step.blit ∈ (render_focal Oracle.ok entry background foreground w h).2.2) ∧
    render_focal Oracle.ok entry background foreground w h =
      render_focal Oracle.ok entry2 background foreground w h := by
  refine ⟨?_, ?_, rfl⟩
  · cases background <;> cases foreground <;>
      simp [render_focal, Oracle.ok] <;> split_ifs <;> simp
  · intro hw hh
    cases background <;> cases foreground <;>
      simp [render_focal, Oracle.ok, hw, hh]

theorem render_focal_never_skips_witness :
    Step.blit ∈ (render_focal Oracle.ok
      ⟨1, false, 42, Geometry.new 75 0 50 20, BarComponentCache.new,
        BarComponentCache.new⟩
      (some ⟨some ⟨255, 0, 255, 255⟩, some ⟨7⟩, Alignment.CENTER⟩)
      (some ⟨some ⟨9⟩, Alignment.CENTER, some 0⟩) 50 20).2.2 :=
  (render_focal_never_skips
    ⟨1, false, 42, Geometry.new 75 0 50 20, BarComponentCache.new,
      BarComponentCache.new⟩
    ⟨1, false, 42, Geometry.new 75 0 50 20, BarComponentCache.new,
      BarComponentCache.new⟩
    (some ⟨some ⟨255, 0, 255, 255⟩, some ⟨7⟩, Alignment.CENTER⟩)
    (some ⟨some ⟨9⟩, Alignment.CENTER, some 0⟩) 50 20).2.1 (by decide) (by decide)

/-- C8 (counterexample): when picture creation fails (all requests before it
succeed), the redraw cycle surfaces an error but the entry does not retain
its previous surface: the old picture was already freed before the failed
create, leaving the entry's picture dangling. -/
theorem render_prev_surface_counterexample :
    (render_focal ⟨true, true, true, true, false, true⟩
      ⟨2, false, 9, Geometry.new 0 0 0 0, BarComponentCache.new,
        BarComponentCache.new⟩ none none 5 7).2.1 = PictureState.freed ∧
    PictureState.freed ≠ PictureState.prev := by
  decide

/-- C8 (amended): every X request failure during the redraw cycle is surfaced
to the caller as a recoverable error, and the entry's previous surface
survives every failure that occurs before the free of the old picture
(pixmap creation, fill, background drawing, foreground drawing); but the old
picture is freed before the new one is created, so a create-picture failure
leaves the entry owning no surface at all, and a blit failure leaves the
freshly built surface installed in place of the previous one. -/
theorem render_focal_error_states (o : Oracle) (entry : BarComponent)
    (background : Option Background) (foreground : Option Foreground) (w h : Nat) :
    (o.create_pixmap = false →
      (render_focal o entry background foreground w h).1 = Except.error "XError" ∧
      (render_focal o entry background foreground w h).2.1 = PictureState.prev) ∧
    (o.create_pixmap = true → o.fill_rect = false →
      (render_focal o entry background foreground w h).1 = Except.error "XError" ∧
      (render_focal o entry background foreground w h).2.1 = PictureState.prev) ∧
    (o.create_pixmap = true → o.fill_rect = true → background.isSome = true →
      o.draw_background = false →
      (render_focal o entry background foreground w h).1 = Except.error "XError" ∧
      (render_focal o entry background foreground w h).2.1 = PictureState.prev) ∧
    (o.create_pixmap = true → o.fill_rect = true →
      (background.isSome = true → o.draw_background = true) →
      foreground.isSome = true → o.draw_foreground = false →
      (render_focal o entry background foreground w h).1 = Except.error "XError" ∧
      (render_focal o entry background foreground w h).2.1 = PictureState.prev) ∧
    (o.create_pixmap = true → o.fill_rect = true →
      (background.isSome = true → o.draw_background = true) →
      (foreground.isSome = true → o.draw_foreground = true) →
      o.create_picture = false →
      (render_focal o entry background foreground w h).1 = Except.error "XError" ∧
      (render_focal o entry background foreground w h).2.1 = PictureState.freed) ∧
    (o.create_pixmap = true → o.fill_rect = true →
      (background.isSome = true → o.draw_background = true) →
      (foreground.isSome = true → o.draw_foreground = true) →
      o.create_picture = true → 0 < w → 0 < h → o.blit = false →
      (render_focal o entry background foreground w h).1 = Except.error "XError" ∧
      (render_focal o entry background foreground w h).2.1 = PictureState.fresh) := by
  refine ⟨?_, ?_, ?_, ?_, ?_, ?_⟩
  · intro h1
    simp [render_focal, h1]
  · intro h1 h2
    simp [render_focal, h1, h2]
  · intro h1 h2 h3 h4
    simp [render_focal, h1, h2, h3, h4]
  · intro h1 h2 h3 h4 h5
    cases background with
    | none =>
        cases foreground with
        | none => simp at h4
        | some f => simp [render_focal, h1, h2, h5]
    | some b =>
        cases foreground with
        | none => simp at h4
        | some f => simp [render_focal, h1, h2, h3 rfl, h5]
  · intro h1 h2 h3 h4 h5
    cases background with
    | none =>
        cases foreground with
        | none => simp [render_focal, h1, h2, h5]
        | some f => simp [render_focal, h1, h2, h4 rfl, h5]
    | some b =>
        cases foreground with
        | none => simp [render_focal, h1, h2, h3 rfl, h5]
        | some f => simp [render_focal, h1, h2, h3 rfl, h4 rfl, h5]
  · intro h1 h2 h3 h4 h5 hw hh h6
    cases background with
    | none =>
        cases foreground with
        | none => simp [render_focal, h1, h2, h5, hw, hh, h6]
        | some f => simp [render_focal, h1, h2, h4 rfl, h5, hw, hh, h6]
    | some b =>
        cases foreground with
        | none => simp [render_focal, h1, h2, h3 rfl, h5, hw, hh, h6]
        | some f => simp [render_focal, h1, h2, h3 rfl, h4 rfl, h5, hw, hh, h6]

theorem render_focal_error_states_witness :
    (render_focal ⟨true, true, true, true, true, false⟩
      ⟨2, false, 9, Geometry.new 0 0 0 0, BarComponentCache.new,
        BarComponentCache.new⟩ none none 5 7).1 = Except.error "XError" ∧
    (render_focal ⟨true, true, true, true, true, false⟩
      ⟨2, false, 9, Geometry.new 0 0 0 0, BarComponentCache.new,
        BarComponentCache.new⟩ none none 5 7).2.1 = PictureState.fresh :=
  (render_focal_error_states ⟨true, true, true, true, true, false⟩
    ⟨2, false, 9, Geometry.new 0 0 0 0, BarComponentCache.new,
      BarComponentCache.new⟩ none none 5 7).2.2.2.2.2
    rfl rfl (by simp) (by simp) rfl (by decide) (by decide) rfl

/-- C9: constructing a cached Text with an empty content string fails at
construction time with the descriptive error "Text content empty" without
running any of the server-side construction (so no text surface is created),
and for every non-empty content string the emptiness check does not reject
the construction. -/
theorem text_new_empty_gate (content : String) (rest : Unit → Except String Nat) :
    (content.isEmpty = true →
      text_new content rest = Except.error "Text content empty") ∧
    (content.isEmpty = false → text_new content rest = rest ()) := by
  constructor <;> intro h <;> simp [text_new, h]

theorem text_new_empty_gate_witness :
    text_new "" (fun _ => Except.ok 3) = Except.error "Text content empty" ∧
    text_new "ab" (fun _ => Except.ok 3) = Except.ok 3 :=
  ⟨(text_new_empty_gate "" (fun _ => Except.ok 3)).1 (by decide),
   (text_new_empty_gate "ab" (fun _ => Except.ok 3)).2 (by decide)⟩

/-- C10: for an input image whose pixel buffer has width * height pixels,
`convert_image` returns 4 * width * height bytes; the output equals the plain
RGBA byte stream with the first and third byte of every pixel exchanged
(second and fourth unchanged), so it is the BGRA serialization; applying the
byte-level channel swap to the output restores the original RGBA bytes, and
the per-pixel swap is an involution. -/
theorem convert_image_bgra (image : RgbaImage) :
    (image.pixels.length = image.width * image.height →
      (convert_image image).length = 4 * (image.width * image.height)) ∧
    convert_image image = swap_bgra (raw_bytes image.pixels) ∧
    swap_bgra (convert_image image) = raw_bytes image.pixels ∧
    (∀ p : Rgba, swap_channels (swap_channels p) = p) := by
  refine ⟨?_, ?_, ?_, ?_⟩
  · intro h
    unfold convert_image
    rw [raw_bytes_length, List.length_map, h]
  · unfold convert_image
    rw [raw_bytes_map_swap]
  · unfold convert_image
    rw [raw_bytes_map_swap, swap_bgra_invol]
  · intro p
    rfl

theorem convert_image_bgra_witness :
    (convert_image ⟨2, 1, [⟨1, 2, 3, 4⟩, ⟨5, 6, 7, 8⟩]⟩).length = 4 * (2 * 1) :=
  (convert_image_bgra ⟨2, 1, [⟨1, 2, 3, 4⟩, ⟨5, 6, 7, 8⟩]⟩).1 rfl

end Leechbar
